import Mathlib

set_option autoImplicit false

/-! Verification of the plugin transport layer of the unity-mcp server.

We give a shallow embedding of the Python modules
`Server/src/transport/plugin_registry.py`, `Server/src/transport/plugin_hub.py`,
`Server/src/transport/unity_instance_middleware.py` and `Server/src/core/config.py`.
Python dictionaries are modelled as association lists with unique keys
(insertion replaces in place, as in Python 3.7+ dicts); `None`-able values
become `Option`; raised exceptions become explicit error results carrying the
exception message.  Wall-clock time in the session-resolution retry loop is
modelled in units of one sleep interval: the registry state visible at poll
tick `k` is an environment function `Nat → RegistryState`, and the deadline
`max_retries × sleep_seconds` admits exactly `max 1 reload_max_retries` sleep
iterations after the initial poll. -/

/-- Lookup in a Python-dict model: the value bound to key `k`, if any. -/
def dget {α : Type} : List (String × α) → String → Option α
  | [], _ => none
  | p :: rest, k => if p.1 = k then some p.2 else dget rest k

/-- Python dict assignment `d[k] = v`: replaces an existing binding in place,
otherwise appends (Python dicts preserve insertion order). -/
def dinsert {α : Type} : List (String × α) → String → α → List (String × α)
  | [], k, v => [(k, v)]
  | p :: rest, k, v => if p.1 = k then (k, v) :: rest else p :: dinsert rest k v

/-- Python dict deletion `d.pop(k, None)` / `del d[k]`: removes the binding of `k`. -/
def derase {α : Type} : List (String × α) → String → List (String × α)
  | [], _ => []
  | p :: rest, k => if p.1 = k then derase rest k else p :: derase rest k

theorem dget_dinsert_self {α : Type} (d : List (String × α)) (k : String) (v : α) :
    dget (dinsert d k v) k = some v := by
  induction d with
  | nil => simp [dget, dinsert]
  | cons p rest ih =>
    by_cases h : p.1 = k <;> simp [dget, dinsert, h, ih]

theorem dget_dinsert_ne {α : Type} (d : List (String × α)) (k k' : String) (v : α)
    (h : k' ≠ k) : dget (dinsert d k v) k' = dget d k' := by
  have hkk : ¬ k = k' := fun e => h e.symm
  induction d with
  | nil =>
    show (if k = k' then some v else dget [] k') = dget [] k'
    rw [if_neg hkk]
  | cons p rest ih =>
    by_cases hp : p.1 = k
    · have hpk : ¬ p.1 = k' := by rw [hp]; exact hkk
      show dget (if p.1 = k then (k, v) :: rest else p :: dinsert rest k v) k' = _
      rw [if_pos hp]
      show (if k = k' then some v else dget rest k') = _
      rw [if_neg hkk]
      show dget rest k' = (if p.1 = k' then some p.2 else dget rest k')
      rw [if_neg hpk]
    · show dget (if p.1 = k then (k, v) :: rest else p :: dinsert rest k v) k' = _
      rw [if_neg hp]
      show (if p.1 = k' then some p.2 else dget (dinsert rest k v) k') =
        (if p.1 = k' then some p.2 else dget rest k')
      rw [ih]

theorem dget_derase_self {α : Type} (d : List (String × α)) (k : String) :
    dget (derase d k) k = none := by
  induction d with
  | nil => simp [dget, derase]
  | cons p rest ih =>
    by_cases h : p.1 = k <;> simp [dget, derase, h, ih]

theorem dget_derase_ne {α : Type} (d : List (String × α)) (k k' : String)
    (h : k' ≠ k) : dget (derase d k) k' = dget d k' := by
  have hkk : ¬ k = k' := fun e => h e.symm
  induction d with
  | nil => rfl
  | cons p rest ih =>
    by_cases hp : p.1 = k
    · have hpk : ¬ p.1 = k' := by rw [hp]; exact hkk
      show dget (if p.1 = k then derase rest k else p :: derase rest k) k' = _
      rw [if_pos hp, ih]
      show dget rest k' = (if p.1 = k' then some p.2 else dget rest k')
      rw [if_neg hpk]
    · show dget (if p.1 = k then derase rest k else p :: derase rest k) k' = _
      rw [if_neg hp]
      show (if p.1 = k' then some p.2 else dget (derase rest k) k') =
        (if p.1 = k' then some p.2 else dget rest k')
      rw [ih]

/-- A tool definition registered by a plugin (`models.models.ToolDefinitionModel`);
only its presence matters for the transport-layer claims. -/
structure ToolDefinitionModel where
  name : String
  description : String
deriving DecidableEq

/-- One connected Unity plugin (`plugin_registry.PluginSession`).
Timestamps are abstract tick values. -/
structure PluginSession where
  session_id : String
  project_name : String
  project_hash : String
  unity_version : String
  registered_at : Nat
  connected_at : Nat
  tools : List (String × ToolDefinitionModel)
  project_id : Option String
deriving DecidableEq

/-- The two dictionaries owned by `plugin_registry.PluginRegistry`. -/
structure RegistryState where
  sessions : List (String × PluginSession)
  hash_to_session : List (String × String)
deriving DecidableEq

/-- `PluginRegistry.__init__`: both maps empty. -/
def PluginRegistry.init : RegistryState := ⟨[], []⟩

/-- `PluginRegistry.register`: builds the new session record, pops the previous
owner of `project_hash` (when it is a different, truthy session id), stores the
record and repoints the hash mapping.  Returns the new state and the session. -/
def PluginRegistry.register (st : RegistryState)
    (session_id project_name project_hash unity_version : String) (now : Nat) :
    RegistryState × PluginSession :=
  let session : PluginSession :=
    { session_id := session_id, project_name := project_name,
      project_hash := project_hash, unity_version := unity_version,
      registered_at := now, connected_at := now, tools := [], project_id := none }
  let sessions1 :=
    match dget st.hash_to_session project_hash with
    | some prev => if prev ≠ "" ∧ prev ≠ session_id then derase st.sessions prev
                   else st.sessions
    | none => st.sessions
  ({ sessions := dinsert sessions1 session_id session,
     hash_to_session := dinsert st.hash_to_session project_hash session_id },
   session)

/-- `PluginRegistry.unregister`: pops the session; deletes the hash mapping only
when it still points at the removed session id. -/
def PluginRegistry.unregister (st : RegistryState) (session_id : String) :
    RegistryState :=
  match dget st.sessions session_id with
  | none => st
  | some session =>
    if dget st.hash_to_session session.project_hash = some session_id then
      { sessions := derase st.sessions session_id,
        hash_to_session := derase st.hash_to_session session.project_hash }
    else
      { sessions := derase st.sessions session_id,
        hash_to_session := st.hash_to_session }

/-- `PluginRegistry.get_session`. -/
def PluginRegistry.get_session (st : RegistryState) (session_id : String) :
    Option PluginSession :=
  dget st.sessions session_id

/-- `PluginRegistry.get_session_id_by_hash`. -/
def PluginRegistry.get_session_id_by_hash (st : RegistryState) (project_hash : String) :
    Option String :=
  dget st.hash_to_session project_hash

/-- `PluginRegistry.list_sessions`: snapshot of the session map. -/
def PluginRegistry.list_sessions (st : RegistryState) : List (String × PluginSession) :=
  st.sessions

/-- The registry state after `register("s1","P1","h","v1")` then
`register("s2","P2","h","v2")`: the second registration steals hash `"h"`. -/
def c3HashSteal : RegistryState :=
  (PluginRegistry.register
    (PluginRegistry.register PluginRegistry.init "s1" "P1" "h" "v1" 0).1
    "s2" "P2" "h" "v2" 1).1

/-- C3 counterexample: after a second session registers the same project hash,
the claim asserts `get_session("s1")` still returns the old record until its own
`unregister`; in fact `register` pops the old session record immediately, so
`get_session("s1")` is already `none` while the hash now maps to `"s2"`. -/
theorem c3_old_record_already_gone :
    PluginRegistry.get_session c3HashSteal "s1" = none ∧
    PluginRegistry.get_session_id_by_hash c3HashSteal "h" = some "s2" := by
  constructor <;> rfl

/-- C3 (amended): if a different, non-empty session id `old` owns `h` and `new`
registers under `h`, the hash mapping now points at `new` (last-registered wins)
and the old session record is popped immediately: `get_session old` is `none`
right after the call (not merely after the old session's own `unregister`). -/
theorem c3_register_last_wins (st : RegistryState) (old new pn h v : String) (t : Nat)
    (hold : PluginRegistry.get_session_id_by_hash st h = some old)
    (hne : old ≠ new) (hemp : old ≠ "") :
    PluginRegistry.get_session_id_by_hash (PluginRegistry.register st new pn h v t).1 h
        = some new ∧
    PluginRegistry.get_session (PluginRegistry.register st new pn h v t).1 old = none := by
  have hold' : dget st.hash_to_session h = some old := hold
  refine ⟨dget_dinsert_self _ _ _, ?_⟩
  show dget (dinsert
      (match dget st.hash_to_session h with
        | some prev => if prev ≠ "" ∧ prev ≠ new then derase st.sessions prev
                       else st.sessions
        | none => st.sessions) new
      { session_id := new, project_name := pn, project_hash := h, unity_version := v,
        registered_at := t, connected_at := t, tools := [], project_id := none }) old = none
  rw [hold']
  show dget (dinsert (if old ≠ "" ∧ old ≠ new then derase st.sessions old
      else st.sessions) new _) old = none
  rw [if_pos ⟨hemp, hne⟩, dget_dinsert_ne _ _ _ _ hne]
  exact dget_derase_self _ _

/-- The registry state with just `"s1"` registered under hash `"h"`. -/
def c3Pre : RegistryState :=
  (PluginRegistry.register PluginRegistry.init "s1" "P1" "h" "v1" 0).1

/-- Witness for `c3_register_last_wins` at a concrete hash-steal input. -/
theorem c3_register_last_wins_witness :
    PluginRegistry.get_session_id_by_hash
        (PluginRegistry.register c3Pre "s2" "P2" "h" "v2" 1).1 "h" = some "s2" ∧
    PluginRegistry.get_session
        (PluginRegistry.register c3Pre "s2" "P2" "h" "v2" 1).1 "s1" = none :=
  c3_register_last_wins c3Pre "s1" "s2" "P2" "h" "v2" 1 rfl (by decide) (by decide)

/-- The fields of `core.config.ServerConfig` that drive the session-resolution
retry window. -/
structure ServerConfig where
  reload_retry_ms : Nat
  reload_max_retries : Nat
deriving DecidableEq

/-- The global `config` instance with the source defaults (40 × 250 ms ≈ 10 s). -/
def config : ServerConfig := { reload_retry_ms := 250, reload_max_retries := 40 }

/-- `sleep_seconds = max(0.05, retry_ms / 1000.0)` from `_resolve_session_id`,
as an exact rational. -/
def sleep_seconds (cfg : ServerConfig) : ℚ :=
  max (1/20 : ℚ) ((cfg.reload_retry_ms : ℚ) / 1000)

/-- The ambiguity error message raised by `_resolve_session_id`. -/
def ambiguousInstancesMsg : String :=
  "Multiple Unity instances are connected. Call set_active_instance with Name@hash from unity://instances."

/-- The no-plugin error message raised by `_resolve_session_id`. -/
def noPluginsMsg : String := "No Unity plugins are currently connected"

/-- Result of session resolution: a session id, or the raised error's message. -/
inductive ResolveOutcome where
  | ok (session_id : String)
  | err (msg : String)
deriving DecidableEq

/-- Target-hash normalisation at the top of `_resolve_session_id`: a falsy
(`None`/empty) reference yields no target; a reference containing `@` keeps the
part after the last `@` (`str.rpartition`), which again counts only if
non-empty; otherwise the whole reference is the hash. -/
def parseTargetHash : Option String → Option String
  | none => none
  | some s =>
    if s = "" then none
    else if s.data.contains '@' then
      let suffix := (s.data.reverse.takeWhile (fun c => c != '@')).reverse
      if suffix = [] then none else some (String.mk suffix)
    else some s

/-- `_try_once` inside `_resolve_session_id`: with a target hash, a direct
lookup plus the session count; without one, auto-select iff exactly one session
is connected. -/
def tryOnce (st : RegistryState) (target_hash : Option String) :
    Option String × Nat :=
  match target_hash with
  | some h =>
    (PluginRegistry.get_session_id_by_hash st h,
     (PluginRegistry.list_sessions st).length)
  | none =>
    let sessions := PluginRegistry.list_sessions st
    let count := sessions.length
    if count = 0 then (none, count)
    else if count = 1 then (sessions.head?.map Prod.fst, count)
    else (none, count)

/-- The sleep-and-retry loop of `_resolve_session_id`.  `k` is the current poll
tick (equal to the number of sleeps performed so far), `fuel` the number of
sleep intervals still admitted by the deadline; the result pairs the outcome
with the total number of sleeps performed. -/
def resolveLoop (env : Nat → RegistryState) (target_hash : Option String) :
    Nat → Option String × Nat → Nat → ResolveOutcome × Nat
  | k, (some sid, _), _ => (ResolveOutcome.ok sid, k)
  | k, (none, count), 0 =>
    if target_hash = none ∧ count > 1 then (ResolveOutcome.err ambiguousInstancesMsg, k)
    else (ResolveOutcome.err noPluginsMsg, k)
  | k, (none, count), fuel + 1 =>
    if target_hash = none ∧ count > 1 then (ResolveOutcome.err ambiguousInstancesMsg, k)
    else resolveLoop env target_hash (k + 1) (tryOnce (env (k + 1)) target_hash) fuel

/-- `PluginHub._resolve_session_id`: the registry state visible at poll tick `k`
is `env k`; the deadline `max_retries × sleep_seconds` admits exactly
`max 1 reload_max_retries` sleeps of `sleep_seconds` each. -/
def PluginHub.resolve_session_id (env : Nat → RegistryState)
    (unity_instance : Option String) (cfg : ServerConfig) : ResolveOutcome × Nat :=
  let max_retries := max 1 cfg.reload_max_retries
  let target_hash := parseTargetHash unity_instance
  resolveLoop env target_hash 0 (tryOnce (env 0) target_hash) max_retries

theorem tryOnce_init (target_hash : Option String) :
    tryOnce PluginRegistry.init target_hash = (none, 0) := by
  cases target_hash <;> rfl

theorem resolveLoop_exhausts (env : Nat → RegistryState) (target_hash : Option String)
    (fuel : Nat) :
    ∀ k : Nat, (∀ i : Nat, tryOnce (env i) target_hash = (none, 0)) →
      resolveLoop env target_hash k (tryOnce (env k) target_hash) fuel
        = (ResolveOutcome.err noPluginsMsg, k + fuel) := by
  induction fuel with
  | zero =>
    intro k hnone
    rw [hnone k]
    show (if target_hash = none ∧ 0 > 1 then _ else _) = _
    rw [if_neg (fun hc => by omega)]
    simp
  | succ fuel ih =>
    intro k hnone
    rw [hnone k]
    show (if target_hash = none ∧ 0 > 1 then _
          else resolveLoop env target_hash (k + 1)
            (tryOnce (env (k + 1)) target_hash) fuel) = _
    rw [if_neg (fun hc => by omega), ih (k + 1) hnone]
    have : k + 1 + fuel = k + (fuel + 1) := by omega
    rw [this]

theorem resolveLoop_finds (env : Nat → RegistryState) (target_hash : Option String)
    (j : Nat) :
    ∀ (fuel k cnt : Nat) (sid : String),
      (∀ i : Nat, k ≤ i → i < k + j → tryOnce (env i) target_hash = (none, 0)) →
      tryOnce (env (k + j)) target_hash = (some sid, cnt) →
      j ≤ fuel →
      resolveLoop env target_hash k (tryOnce (env k) target_hash) fuel
        = (ResolveOutcome.ok sid, k + j) := by
  induction j with
  | zero =>
    intro fuel k cnt sid _ hfound _
    have hk : tryOnce (env k) target_hash = (some sid, cnt) := by
      have : k + 0 = k := by omega
      rw [this] at hfound; exact hfound
    rw [hk]
    cases fuel <;> rfl
  | succ j ih =>
    intro fuel k cnt sid hnone hfound hle
    cases fuel with
    | zero => omega
    | succ fuel =>
      have hk : tryOnce (env k) target_hash = (none, 0) :=
        hnone k (Nat.le_refl k) (by omega)
      rw [hk]
      show (if target_hash = none ∧ 0 > 1 then _
            else resolveLoop env target_hash (k + 1)
              (tryOnce (env (k + 1)) target_hash) fuel) = _
      rw [if_neg (fun hc => by omega)]
      have hnone' : ∀ i : Nat, k + 1 ≤ i → i < (k + 1) + j →
          tryOnce (env i) target_hash = (none, 0) :=
        fun i h1 h2 => hnone i (by omega) (by omega)
      have hfound' : tryOnce (env ((k + 1) + j)) target_hash = (some sid, cnt) := by
        have : (k + 1) + j = k + (j + 1) := by omega
        rw [this]; exact hfound
      have := ih fuel (k + 1) cnt sid hnone' hfound' (by omega)
      rw [this]
      have : k + 1 + j = k + (j + 1) := by omega
      rw [this]

theorem tryOnce_none_many (st : RegistryState) (h2 : 2 ≤ st.sessions.length) :
    tryOnce st none = (none, st.sessions.length) := by
  show (if st.sessions.length = 0 then ((none : Option String), st.sessions.length)
        else if st.sessions.length = 1 then (st.sessions.head?.map Prod.fst, st.sessions.length)
        else (none, st.sessions.length)) = (none, st.sessions.length)
  rw [if_neg (by omega), if_neg (by omega)]

theorem resolveLoop_ambiguous (env : Nat → RegistryState) (k count fuel : Nat)
    (h2 : 1 < count) :
    resolveLoop env none k (none, count) fuel
      = (ResolveOutcome.err ambiguousInstancesMsg, k) := by
  cases fuel with
  | zero =>
    show (if (none : Option String) = none ∧ count > 1 then _ else _) = _
    rw [if_pos ⟨rfl, h2⟩]
  | succ fuel =>
    show (if (none : Option String) = none ∧ count > 1 then _ else _) = _
    rw [if_pos ⟨rfl, h2⟩]

/-- C2: with no target instance reference and two or more registered sessions,
resolution raises the ambiguity error (pointing at `set_active_instance` with
`Name@hash`) after zero sleeps — the ambiguous case is never retried. -/
theorem c2_ambiguity_immediate (env : Nat → RegistryState) (cfg : ServerConfig)
    (h2 : 2 ≤ (PluginRegistry.list_sessions (env 0)).length) :
    PluginHub.resolve_session_id env none cfg
      = (ResolveOutcome.err ambiguousInstancesMsg, 0) := by
  show resolveLoop env (parseTargetHash none) 0
      (tryOnce (env 0) (parseTargetHash none)) (max 1 cfg.reload_max_retries) = _
  have hp : parseTargetHash none = none := rfl
  have h2' : 2 ≤ (env 0).sessions.length := h2
  rw [hp, tryOnce_none_many (env 0) h2']
  exact resolveLoop_ambiguous env 0 _ _ (by omega)

/-- A registry state holding two sessions under distinct project hashes. -/
def c2TwoSessions : RegistryState :=
  (PluginRegistry.register
    (PluginRegistry.register PluginRegistry.init "s1" "P1" "h1" "v1" 0).1
    "s2" "P2" "h2" "v2" 1).1

/-- Witness for `c2_ambiguity_immediate` with two concrete sessions. -/
theorem c2_ambiguity_immediate_witness :
    PluginHub.resolve_session_id (fun _ => c2TwoSessions) none config
      = (ResolveOutcome.err ambiguousInstancesMsg, 0) :=
  c2_ambiguity_immediate (fun _ => c2TwoSessions) config (by decide)

/-- C1: with zero sessions for the whole window, resolution performs the full
bounded sleep-and-retry window — `max 1 reload_max_retries` sleep intervals,
with the source defaults 40 retries × 250 ms = 10 s — and then fails with the
no-plugins error, which is distinct from the ambiguity error; if instead a
matching session appears at poll tick `j` inside the window, resolution
returns its session id after exactly `j` sleeps. -/
theorem c1_retry_window (env : Nat → RegistryState) (ui : Option String)
    (cfg : ServerConfig) (j cnt : Nat) (sid : String)
    (hempty : ∀ i : Nat, i < j → env i = PluginRegistry.init)
    (hfound : tryOnce (env j) (parseTargetHash ui) = (some sid, cnt))
    (hj : j ≤ max 1 cfg.reload_max_retries) :
    PluginHub.resolve_session_id env ui cfg = (ResolveOutcome.ok sid, j) ∧
    (∀ env2 : Nat → RegistryState, (∀ k, env2 k = PluginRegistry.init) →
        PluginHub.resolve_session_id env2 ui cfg
          = (ResolveOutcome.err noPluginsMsg, max 1 cfg.reload_max_retries)) ∧
    noPluginsMsg ≠ ambiguousInstancesMsg ∧
    config.reload_max_retries = 40 ∧ config.reload_retry_ms = 250 ∧
    (config.reload_max_retries : ℚ) * sleep_seconds config = 10 := by
  refine ⟨?_, ?_, by decide, rfl, rfl, ?_⟩
  · show resolveLoop env (parseTargetHash ui) 0
        (tryOnce (env 0) (parseTargetHash ui)) (max 1 cfg.reload_max_retries) = _
    have h0 : ∀ i : Nat, 0 ≤ i → i < 0 + j →
        tryOnce (env i) (parseTargetHash ui) = (none, 0) := by
      intro i _ hi
      rw [hempty i (by omega), tryOnce_init]
    have hf : tryOnce (env (0 + j)) (parseTargetHash ui) = (some sid, cnt) := by
      rw [Nat.zero_add]; exact hfound
    have hloop := resolveLoop_finds env (parseTargetHash ui) j
      (max 1 cfg.reload_max_retries) 0 cnt sid h0 hf hj
    rw [hloop, Nat.zero_add]
  · intro env2 h0
    show resolveLoop env2 (parseTargetHash ui) 0
        (tryOnce (env2 0) (parseTargetHash ui)) (max 1 cfg.reload_max_retries) = _
    have hn : ∀ i : Nat, tryOnce (env2 i) (parseTargetHash ui) = (none, 0) := by
      intro i; rw [h0 i, tryOnce_init]
    rw [resolveLoop_exhausts env2 (parseTargetHash ui)
      (max 1 cfg.reload_max_retries) 0 hn, Nat.zero_add]
  · norm_num [sleep_seconds, config]

/-- A registry state holding the single session `"s1"` under hash `"hw"`. -/
def c1OneSession : RegistryState :=
  (PluginRegistry.register PluginRegistry.init "s1" "Pw" "hw" "vw" 0).1

/-- Environment for the C1 witness: empty registry at tick 0, one session from
tick 1 on (a plugin reconnects during the first sleep). -/
def c1Env : Nat → RegistryState :=
  fun i => if 1 ≤ i then c1OneSession else PluginRegistry.init

/-- Witness for `c1_retry_window`: the session appearing at tick 1 is returned
after exactly one sleep. -/
theorem c1_retry_window_witness :
    PluginHub.resolve_session_id c1Env none config = (ResolveOutcome.ok "s1", 1) ∧
    (∀ env2 : Nat → RegistryState, (∀ k, env2 k = PluginRegistry.init) →
        PluginHub.resolve_session_id env2 none config
          = (ResolveOutcome.err noPluginsMsg, max 1 config.reload_max_retries)) ∧
    noPluginsMsg ≠ ambiguousInstancesMsg ∧
    config.reload_max_retries = 40 ∧ config.reload_retry_ms = 250 ∧
    (config.reload_max_retries : ℚ) * sleep_seconds config = 10 :=
  c1_retry_window c1Env none config 1 1 "s1"
    (fun i hi => by
      have h0 : i = 0 := by omega
      subst h0; rfl)
    (by decide) (by decide)

theorem parseTargetHash_trailing_at (s : String) (hs : s.data.getLast? = some '@') :
    parseTargetHash (some s) = none := by
  have hne : ¬ s = "" := by
    intro h
    rw [h] at hs
    exact absurd hs (by decide)
  obtain ⟨t, ht⟩ : ∃ t, s.data.reverse = '@' :: t := by
    have hrev : s.data.reverse.head? = some '@' := by
      rw [List.head?_reverse]; exact hs
    cases hcase : s.data.reverse with
    | nil => rw [hcase] at hrev; exact absurd hrev (by simp)
    | cons c t =>
      rw [hcase] at hrev
      simp only [List.head?_cons, Option.some.injEq] at hrev
      exact ⟨t, by rw [hrev]⟩
  have hcont : s.data.contains '@' = true := by
    have hm : '@' ∈ s.data := by
      have : '@' ∈ s.data.reverse := by rw [ht]; exact List.mem_cons_self _ _
      exact List.mem_reverse.mp this
    exact List.elem_eq_true_of_mem hm
  have htake : s.data.reverse.takeWhile (fun c => c != '@') = [] := by
    rw [ht]
    simp [List.takeWhile_cons]
  show (if s = "" then none
        else if s.data.contains '@' then
          if (s.data.reverse.takeWhile (fun c => c != '@')).reverse = [] then none
          else some (String.mk (s.data.reverse.takeWhile (fun c => c != '@')).reverse)
        else some s) = none
  rw [if_neg hne, if_pos hcont, if_pos (by rw [htake]; rfl)]

/-- C10: an instance reference ending in the `@` separator with an empty hash
(such as `"Proj@"`) parses to no target hash at all, so `_resolve_session_id`
behaves exactly as if no instance reference had been given, for every registry
environment and configuration. -/
theorem c10_trailing_at_like_none (s : String) (hs : s.data.getLast? = some '@')
    (env : Nat → RegistryState) (cfg : ServerConfig) :
    PluginHub.resolve_session_id env (some s) cfg
      = PluginHub.resolve_session_id env none cfg := by
  show resolveLoop env (parseTargetHash (some s)) 0
      (tryOnce (env 0) (parseTargetHash (some s))) (max 1 cfg.reload_max_retries)
    = resolveLoop env (parseTargetHash none) 0
      (tryOnce (env 0) (parseTargetHash none)) (max 1 cfg.reload_max_retries)
  rw [parseTargetHash_trailing_at s hs]
  rfl

/-- Witness for `c10_trailing_at_like_none` at `"Proj@"` over a two-session
registry environment. -/
theorem c10_trailing_at_like_none_witness :
    PluginHub.resolve_session_id (fun _ => c2TwoSessions) (some "Proj@") config
      = PluginHub.resolve_session_id (fun _ => c2TwoSessions) none config :=
  c10_trailing_at_like_none "Proj@" (by decide) (fun _ => c2TwoSessions) config

/-- State of an `asyncio.Future` stored in the pending-command map. -/
inductive FutureState where
  | unresolved
  | resolved (result : String)
deriving DecidableEq

/-- The class-level mutable state of `PluginHub` used by command dispatch:
channel bindings (channels are abstract ids) and the pending-command map. -/
structure HubState where
  connections : List (String × Nat)
  pending : List (String × FutureState)
deriving DecidableEq

/-- The `execute` frame sent to the plugin (`transport.models.ExecuteCommandMessage`). -/
structure ExecuteCommandMessage where
  id : String
  name : String
  params : String
  timeout : Nat
deriving DecidableEq

/-- `PluginHub.COMMAND_TIMEOUT`. -/
def PluginHub.COMMAND_TIMEOUT : Nat := 30

/-- Message of the error `_get_connection` raises for an unbound session id. -/
def notConnectedMsg (session_id : String) : String :=
  "Plugin session " ++ session_id ++ " not connected"

/-- Message of the duplicate-command-id error in `send_command`. -/
def duplicateCommandMsg (command_id : String) : String :=
  "Duplicate command id generated: " ++ command_id

/-- Stand-in for the `asyncio.TimeoutError` raised by `asyncio.wait_for`. -/
def commandTimeoutMsg : String := "asyncio.TimeoutError"

/-- How the `await` inside `send_command`'s `try` block ends: the correlated
result arrives, the command timeout fires, or some other exception is raised. -/
inductive AwaitOutcome where
  | result (v : String)
  | timeout
  | exc (msg : String)
deriving DecidableEq

/-- Result of `send_command`: the returned value or the raised error's message. -/
inductive SendResult where
  | ok (v : String)
  | err (msg : String)
deriving DecidableEq

/-- `PluginHub.send_command`, with the generated uuid (`command_id`) and the
awaited outcome supplied as parameters.  Returns the result, the final hub
state, and the list of `execute` frames sent on the session's channel.  The
`finally` block pops the waiter entry on every exit path of the `try`. -/
def PluginHub.send_command (st : HubState) (session_id command_type params : String)
    (command_id : String) (outcome : AwaitOutcome) :
    SendResult × HubState × List ExecuteCommandMessage :=
  match dget st.connections session_id with
  | none => (SendResult.err (notConnectedMsg session_id), st, [])
  | some _ =>
    if (dget st.pending command_id).isSome then
      (SendResult.err (duplicateCommandMsg command_id), st, [])
    else
      let pending1 := dinsert st.pending command_id FutureState.unresolved
      let res := match outcome with
        | AwaitOutcome.result v => SendResult.ok v
        | AwaitOutcome.timeout => SendResult.err commandTimeoutMsg
        | AwaitOutcome.exc m => SendResult.err m
      (res, { st with pending := derase pending1 command_id },
       [{ id := command_id, name := command_type, params := params,
          timeout := PluginHub.COMMAND_TIMEOUT }])

/-- C5: whenever `send_command` actually registers a pending-command waiter
(the session has a channel and the generated id is fresh), the waiter entry is
absent from the pending map when the call returns or raises — for every awaited
outcome: delivered result, timeout, or other exception. -/
theorem c5_waiter_always_removed (st : HubState)
    (session_id command_type params command_id : String) (outcome : AwaitOutcome)
    (hconn : (dget st.connections session_id).isSome)
    (hfresh : dget st.pending command_id = none) :
    dget (PluginHub.send_command st session_id command_type params
      command_id outcome).2.1.pending command_id = none := by
  obtain ⟨chan, hchan⟩ := Option.isSome_iff_exists.mp hconn
  unfold PluginHub.send_command
  rw [hchan, hfresh]
  cases outcome <;> simp [dget_derase_self]

/-- A hub state with one bound channel and no pending commands. -/
def c5Hub : HubState := { connections := [("s1", 7)], pending := [] }

/-- Witness for `c5_waiter_always_removed` on a concrete timed-out command. -/
theorem c5_waiter_always_removed_witness :
    dget (PluginHub.send_command c5Hub "s1" "ping" "{}" "cmd-1"
      AwaitOutcome.timeout).2.1.pending "cmd-1" = none :=
  c5_waiter_always_removed c5Hub "s1" "ping" "{}" "cmd-1" AwaitOutcome.timeout
    (by decide) (by decide)

/-- C6: for a session id with no bound channel, `send_command` fails with the
"not connected" error, sends no frame, leaves the state (and in particular the
pending map) unchanged, and its behaviour does not depend on the awaited
outcome at all — it fails before ever waiting. -/
theorem c6_not_connected_fails_fast (st : HubState)
    (session_id command_type params command_id : String) (outcome : AwaitOutcome)
    (hnone : dget st.connections session_id = none) :
    PluginHub.send_command st session_id command_type params command_id outcome
      = (SendResult.err (notConnectedMsg session_id), st, []) ∧
    (∀ o2 : AwaitOutcome,
      PluginHub.send_command st session_id command_type params command_id o2
        = PluginHub.send_command st session_id command_type params command_id outcome) := by
  constructor
  · unfold PluginHub.send_command
    rw [hnone]
  · intro o2
    unfold PluginHub.send_command
    rw [hnone]

/-- Witness for `c6_not_connected_fails_fast` on an empty hub state. -/
theorem c6_not_connected_fails_fast_witness :
    PluginHub.send_command { connections := [], pending := [] } "ghost" "ping" "{}"
        "cmd-2" (AwaitOutcome.result "r")
      = (SendResult.err (notConnectedMsg "ghost"),
         { connections := [], pending := [] }, []) ∧
    (∀ o2 : AwaitOutcome,
      PluginHub.send_command { connections := [], pending := [] } "ghost" "ping" "{}"
          "cmd-2" o2
        = PluginHub.send_command { connections := [], pending := [] } "ghost" "ping" "{}"
            "cmd-2" (AwaitOutcome.result "r")) :=
  c6_not_connected_fails_fast { connections := [], pending := [] } "ghost" "ping" "{}"
    "cmd-2" (AwaitOutcome.result "r") (by decide)

/-- `PluginHub._handle_command_result`: a falsy (empty) id is logged and
dropped; otherwise the pending future with that id, if present and not yet
done, receives the result in place; anything else is logged and dropped. -/
def PluginHub.handle_command_result (pending : List (String × FutureState))
    (command_id result : String) : List (String × FutureState) :=
  if command_id = "" then pending
  else
    match dget pending command_id with
    | some FutureState.unresolved =>
      dinsert pending command_id (FutureState.resolved result)
    | some (FutureState.resolved _) => pending
    | none => pending

/-- C9: handling a `command_result` frame touches at most the pending entry
keyed by the frame's id: every other key reads unchanged; an id matching no
pending command, or one whose waiter is already resolved, leaves the whole map
unchanged (logged and dropped, no error); a non-empty id whose waiter is still
unresolved gets exactly that waiter resolved with the frame's result. -/
theorem c9_command_result_effect (pending : List (String × FutureState))
    (command_id result : String) :
    (∀ k : String, k ≠ command_id →
      dget (PluginHub.handle_command_result pending command_id result) k
        = dget pending k) ∧
    (dget pending command_id = none →
      PluginHub.handle_command_result pending command_id result = pending) ∧
    (∀ v : String, dget pending command_id = some (FutureState.resolved v) →
      PluginHub.handle_command_result pending command_id result = pending) ∧
    (command_id ≠ "" → dget pending command_id = some FutureState.unresolved →
      dget (PluginHub.handle_command_result pending command_id result) command_id
        = some (FutureState.resolved result)) := by
  refine ⟨?_, ?_, ?_, ?_⟩
  · intro k hk
    unfold PluginHub.handle_command_result
    by_cases he : command_id = ""
    · rw [if_pos he]
    · rw [if_neg he]
      cases hget : dget pending command_id with
      | none => rfl
      | some f =>
        cases f with
        | unresolved => exact dget_dinsert_ne _ _ _ _ hk
        | resolved v => rfl
  · intro hget
    unfold PluginHub.handle_command_result
    by_cases he : command_id = ""
    · rw [if_pos he]
    · rw [if_neg he, hget]
  · intro v hget
    unfold PluginHub.handle_command_result
    by_cases he : command_id = ""
    · rw [if_pos he]
    · rw [if_neg he, hget]
  · intro he hget
    unfold PluginHub.handle_command_result
    rw [if_neg he, hget]
    exact dget_dinsert_self _ _ _

/-- Witness for `c9_command_result_effect` on a two-entry pending map. -/
theorem c9_command_result_effect_witness :
    (∀ k : String, k ≠ "cmd-1" →
      dget (PluginHub.handle_command_result
        [("cmd-1", FutureState.unresolved), ("cmd-2", FutureState.unresolved)]
        "cmd-1" "res") k
        = dget [("cmd-1", FutureState.unresolved), ("cmd-2", FutureState.unresolved)] k) ∧
    (dget [("cmd-1", FutureState.unresolved), ("cmd-2", FutureState.unresolved)]
        "cmd-1" = none →
      PluginHub.handle_command_result
        [("cmd-1", FutureState.unresolved), ("cmd-2", FutureState.unresolved)]
        "cmd-1" "res"
        = [("cmd-1", FutureState.unresolved), ("cmd-2", FutureState.unresolved)]) ∧
    (∀ v : String,
      dget [("cmd-1", FutureState.unresolved), ("cmd-2", FutureState.unresolved)]
        "cmd-1" = some (FutureState.resolved v) →
      PluginHub.handle_command_result
        [("cmd-1", FutureState.unresolved), ("cmd-2", FutureState.unresolved)]
        "cmd-1" "res"
        = [("cmd-1", FutureState.unresolved), ("cmd-2", FutureState.unresolved)]) ∧
    (("cmd-1" : String) ≠ "" →
      dget [("cmd-1", FutureState.unresolved), ("cmd-2", FutureState.unresolved)]
        "cmd-1" = some FutureState.unresolved →
      dget (PluginHub.handle_command_result
        [("cmd-1", FutureState.unresolved), ("cmd-2", FutureState.unresolved)]
        "cmd-1" "res") "cmd-1"
        = some (FutureState.resolved "res")) :=
  c9_command_result_effect
    [("cmd-1", FutureState.unresolved), ("cmd-2", FutureState.unresolved)] "cmd-1" "res"

/-- Observable effect of `PluginHub._handle_register`: the close code used (if
the channel was closed), the session ids carried by `registered` frames sent,
and the resulting registry and channel-binding states. -/
structure RegisterEffect where
  close_code : Option Nat
  sent : List String
  registry : RegistryState
  connections : List (String × Nat)
deriving DecidableEq

/-- `PluginHub._handle_register`, with the freshly generated uuid supplied as
`new_session_id`.  A falsy (empty) `project_hash` closes the channel with code
4400 and raises, before any frame is sent or any state is touched; otherwise
the hub replies `registered{session_id}`, creates the registry session and
binds the session id to the channel. -/
def PluginHub.handle_register (registry : RegistryState)
    (connections : List (String × Nat)) (chan : Nat)
    (project_name project_hash unity_version new_session_id : String)
    (now : Nat) : RegisterEffect :=
  if project_hash = "" then
    { close_code := some 4400, sent := [], registry := registry,
      connections := connections }
  else
    let r := PluginRegistry.register registry new_session_id project_name
      project_hash unity_version now
    { close_code := none, sent := [new_session_id], registry := r.1,
      connections := dinsert connections r.2.session_id chan }

/-- C8: a `register` frame with an empty project hash closes the channel with
protocol-error code 4400, sends no `registered` frame and leaves registry and
channel bindings untouched; with a non-empty hash the hub closes nothing,
replies with a `registered` frame carrying the fresh session id, creates the
registry session under that id, and binds that id to the channel. -/
theorem c8_register_handshake :
    (∀ (registry : RegistryState) (connections : List (String × Nat)) (chan : Nat)
        (pn uv nsid : String) (now : Nat),
      PluginHub.handle_register registry connections chan pn "" uv nsid now
        = { close_code := some 4400, sent := [], registry := registry,
            connections := connections }) ∧
    (∀ (registry : RegistryState) (connections : List (String × Nat)) (chan : Nat)
        (pn ph uv nsid : String) (now : Nat), ph ≠ "" →
      (PluginHub.handle_register registry connections chan pn ph uv nsid now).close_code
          = none ∧
      (PluginHub.handle_register registry connections chan pn ph uv nsid now).sent
          = [nsid] ∧
      PluginRegistry.get_session
          (PluginHub.handle_register registry connections chan pn ph uv nsid now).registry
          nsid
        = some { session_id := nsid, project_name := pn, project_hash := ph,
                 unity_version := uv, registered_at := now, connected_at := now,
                 tools := [], project_id := none } ∧
      dget (PluginHub.handle_register registry connections chan pn ph uv nsid now).connections
          nsid
        = some chan) := by
  constructor
  · intro registry connections chan pn uv nsid now
    unfold PluginHub.handle_register
    rw [if_pos rfl]
  · intro registry connections chan pn ph uv nsid now hne
    unfold PluginHub.handle_register
    rw [if_neg hne]
    refine ⟨rfl, rfl, dget_dinsert_self _ _ _, dget_dinsert_self _ _ _⟩

/-- Witness for `c8_register_handshake`: one rejected and one accepted
handshake on concrete inputs. -/
theorem c8_register_handshake_witness :
    PluginHub.handle_register PluginRegistry.init [] 7 "P" "" "v" "ns" 0
      = { close_code := some 4400, sent := [], registry := PluginRegistry.init,
          connections := [] } ∧
    ((PluginHub.handle_register PluginRegistry.init [] 7 "P" "hh" "v" "ns" 0).close_code
        = none ∧
     (PluginHub.handle_register PluginRegistry.init [] 7 "P" "hh" "v" "ns" 0).sent
        = ["ns"] ∧
     PluginRegistry.get_session
        (PluginHub.handle_register PluginRegistry.init [] 7 "P" "hh" "v" "ns" 0).registry
        "ns"
       = some { session_id := "ns", project_name := "P", project_hash := "hh",
                unity_version := "v", registered_at := 0, connected_at := 0,
                tools := [], project_id := none } ∧
     dget (PluginHub.handle_register PluginRegistry.init [] 7 "P" "hh" "v" "ns" 0).connections
        "ns"
       = some 7) :=
  ⟨c8_register_handshake.1 PluginRegistry.init [] 7 "P" "v" "ns" 0,
   c8_register_handshake.2 PluginRegistry.init [] 7 "P" "hh" "v" "ns" 0 (by decide)⟩

/-- Observable effect of one intercepted tool call through
`UnityInstanceMiddleware.on_call_tool`: the active-instance map afterwards,
the request-scoped state injected for the wrapped operation, and whether the
wrapped operation (`call_next`) was invoked. -/
structure ToolCallEffect where
  active_by_key : List (String × String)
  injected_instance : Option String
  injected_session_id : Option String
  proceeded : Bool
deriving DecidableEq

/-- `UnityInstanceMiddleware.on_call_tool` for the caller with session key
`key`.  A falsy stored binding means no injection; with a configured hub the
stored instance is resolved, and a resolution failure clears the binding and
proceeds with nothing injected. -/
def UnityInstanceMiddleware.on_call_tool (active_by_key : List (String × String))
    (key : String) (hub_configured : Bool) (env : Nat → RegistryState)
    (cfg : ServerConfig) : ToolCallEffect :=
  match dget active_by_key key with
  | none =>
    { active_by_key := active_by_key, injected_instance := none,
      injected_session_id := none, proceeded := true }
  | some inst =>
    if inst = "" then
      { active_by_key := active_by_key, injected_instance := none,
        injected_session_id := none, proceeded := true }
    else if hub_configured then
      match (PluginHub.resolve_session_id env (some inst) cfg).1 with
      | ResolveOutcome.err _ =>
        { active_by_key := derase active_by_key key, injected_instance := none,
          injected_session_id := none, proceeded := true }
      | ResolveOutcome.ok sid =>
        { active_by_key := active_by_key, injected_instance := some inst,
          injected_session_id := some sid, proceeded := true }
    else
      { active_by_key := active_by_key, injected_instance := some inst,
        injected_session_id := none, proceeded := true }

/-- C7: when the caller's stored active-instance binding resolves to an error
(for instance because its session disappeared), the next intercepted tool call
clears that caller's binding and still invokes the wrapped operation, injecting
no instance and no session id — it does not fail the call. -/
theorem c7_stale_binding_cleared (active_by_key : List (String × String))
    (key inst msg : String) (env : Nat → RegistryState) (cfg : ServerConfig)
    (hbind : dget active_by_key key = some inst) (hne : inst ≠ "")
    (hfail : (PluginHub.resolve_session_id env (some inst) cfg).1
      = ResolveOutcome.err msg) :
    UnityInstanceMiddleware.on_call_tool active_by_key key true env cfg
      = { active_by_key := derase active_by_key key, injected_instance := none,
          injected_session_id := none, proceeded := true } ∧
    dget (UnityInstanceMiddleware.on_call_tool active_by_key key true env
      cfg).active_by_key key = none := by
  have heffect : UnityInstanceMiddleware.on_call_tool active_by_key key true env cfg
      = { active_by_key := derase active_by_key key, injected_instance := none,
          injected_session_id := none, proceeded := true } := by
    unfold UnityInstanceMiddleware.on_call_tool
    rw [hbind]
    show ((if inst = "" then
        { active_by_key := active_by_key, injected_instance := none,
          injected_session_id := none, proceeded := true }
      else if true = true then
        match (PluginHub.resolve_session_id env (some inst) cfg).1 with
        | ResolveOutcome.err _ =>
          { active_by_key := derase active_by_key key, injected_instance := none,
            injected_session_id := none, proceeded := true }
        | ResolveOutcome.ok sid =>
          { active_by_key := active_by_key, injected_instance := some inst,
            injected_session_id := some sid, proceeded := true }
      else
        { active_by_key := active_by_key, injected_instance := some inst,
          injected_session_id := none, proceeded := true }) : ToolCallEffect) = _
    rw [if_neg hne, if_pos rfl, hfail]
  refine ⟨heffect, ?_⟩
  rw [heffect]
  exact dget_derase_self _ _

/-- Witness for `c7_stale_binding_cleared`: a binding to `"Proj@dead"` whose
hash matches nothing in an empty registry (window of one retry). -/
theorem c7_stale_binding_cleared_witness :
    UnityInstanceMiddleware.on_call_tool [("k", "Proj@dead")] "k" true
        (fun _ => PluginRegistry.init) { reload_retry_ms := 250, reload_max_retries := 1 }
      = { active_by_key := [], injected_instance := none,
          injected_session_id := none, proceeded := true } ∧
    dget (UnityInstanceMiddleware.on_call_tool [("k", "Proj@dead")] "k" true
        (fun _ => PluginRegistry.init)
        { reload_retry_ms := 250, reload_max_retries := 1 }).active_by_key "k" = none :=
  c7_stale_binding_cleared [("k", "Proj@dead")] "k" "Proj@dead" noPluginsMsg
    (fun _ => PluginRegistry.init) { reload_retry_ms := 250, reload_max_retries := 1 }
    (by decide) (by decide) (by decide)

/-- One registry call in a trace: `register` (with its arguments) or
`unregister`. -/
inductive RegOp where
  | reg (session_id project_name project_hash unity_version : String)
  | unreg (session_id : String)
deriving DecidableEq

/-- Effect of one trace operation on the registry state (timestamps are
irrelevant to the claims and fixed at 0). -/
def regStep (st : RegistryState) : RegOp → RegistryState
  | RegOp.reg sid pn ph uv => (PluginRegistry.register st sid pn ph uv 0).1
  | RegOp.unreg sid => PluginRegistry.unregister st sid

/-- Run a trace of registry calls from the empty registry. -/
def runOps (ops : List RegOp) : RegistryState :=
  ops.foldl regStep PluginRegistry.init

theorem runOps_snoc (ops : List RegOp) (op : RegOp) :
    runOps (ops ++ [op]) = regStep (runOps ops) op := by
  unfold runOps
  rw [List.foldl_append]
  rfl

/-- Helper for `specLookup`, scanning the trace from most recent to oldest
(the list is the reversed trace).  `banned` collects the session ids that were
passed to `unregister` later in the trace than the point being scanned. -/
def specLookupGo (h : String) : List String → List RegOp → Option String
  | _, [] => none
  | banned, RegOp.reg sid _ ph _ :: rest =>
    if ph = h then (if sid ∈ banned then none else some sid)
    else specLookupGo h banned rest
  | banned, RegOp.unreg sid :: rest => specLookupGo h (sid :: banned) rest

/-- The specification's reading of `get_session_id_by_hash` over a trace: the
session id of the most recent `register` call with project hash `h`, unless
that session id was unregistered later in the trace; `none` otherwise. -/
def specLookup (ops : List RegOp) (h : String) : Option String :=
  specLookupGo h [] ops.reverse

/-- The session ids of the `register` calls of a trace. -/
def regSids : List RegOp → List String
  | [] => []
  | RegOp.reg sid _ _ _ :: rest => sid :: regSids rest
  | RegOp.unreg _ :: rest => regSids rest

/-- Traces whose `register` calls use pairwise-distinct, non-empty session ids
— exactly what the hub guarantees by generating a fresh uuid4 per handshake. -/
def FreshOps (ops : List RegOp) : Prop :=
  (regSids ops).Nodup ∧ ∀ sid ∈ regSids ops, sid ≠ ""

theorem regSids_append (a b : List RegOp) :
    regSids (a ++ b) = regSids a ++ regSids b := by
  induction a with
  | nil => rfl
  | cons op rest ih =>
    cases op with
    | reg sid pn ph uv =>
      show sid :: regSids (rest ++ b) = (sid :: regSids rest) ++ regSids b
      rw [ih]
      rfl
    | unreg sid =>
      show regSids (rest ++ b) = regSids rest ++ regSids b
      exact ih

theorem specLookupGo_banned (h : String) (rops : List RegOp) :
    ∀ banned : List String,
      specLookupGo h banned rops
        = (specLookupGo h [] rops).bind
            (fun sid => if sid ∈ banned then none else some sid) := by
  induction rops with
  | nil => intro banned; rfl
  | cons op rest ih =>
    intro banned
    cases op with
    | reg sid pn ph uv =>
      by_cases hph : ph = h
      · show (if ph = h then (if sid ∈ banned then none else some sid)
              else specLookupGo h banned rest) = _
        rw [if_pos hph]
        have hr : specLookupGo h [] (RegOp.reg sid pn ph uv :: rest) = some sid := by
          show (if ph = h then (if sid ∈ ([] : List String) then none else some sid)
                else specLookupGo h [] rest) = some sid
          rw [if_pos hph]
          simp
        rw [hr]
        rfl
      · show (if ph = h then (if sid ∈ banned then none else some sid)
              else specLookupGo h banned rest) = _
        rw [if_neg hph]
        have hr : specLookupGo h [] (RegOp.reg sid pn ph uv :: rest)
            = specLookupGo h [] rest := by
          show (if ph = h then (if sid ∈ ([] : List String) then none else some sid)
                else specLookupGo h [] rest) = _
          rw [if_neg hph]
        rw [hr, ih banned]
    | unreg sid =>
      show specLookupGo h (sid :: banned) rest = _
      have hr : specLookupGo h [] (RegOp.unreg sid :: rest)
          = specLookupGo h [sid] rest := rfl
      rw [hr, ih (sid :: banned), ih [sid]]
      cases hc : specLookupGo h [] rest with
      | none => rfl
      | some s =>
        by_cases hs : s = sid
        · simp [hs]
        · by_cases hb : s ∈ banned <;> simp [hs, hb]

theorem specLookup_snoc_reg (ops : List RegOp) (sid pn ph uv h : String) :
    specLookup (ops ++ [RegOp.reg sid pn ph uv]) h
      = if ph = h then some sid else specLookup ops h := by
  unfold specLookup
  rw [List.reverse_append]
  show specLookupGo h [] (RegOp.reg sid pn ph uv :: ops.reverse) = _
  by_cases hph : ph = h
  · show (if ph = h then (if sid ∈ ([] : List String) then none else some sid)
          else specLookupGo h [] ops.reverse) = _
    rw [if_pos hph, if_pos hph]
    simp
  · show (if ph = h then (if sid ∈ ([] : List String) then none else some sid)
          else specLookupGo h [] ops.reverse) = _
    rw [if_neg hph, if_neg hph]

theorem specLookup_snoc_unreg (ops : List RegOp) (sid h : String) :
    specLookup (ops ++ [RegOp.unreg sid]) h
      = (specLookup ops h).bind (fun s => if s = sid then none else some s) := by
  unfold specLookup
  rw [List.reverse_append]
  show specLookupGo h [sid] ops.reverse = _
  rw [specLookupGo_banned h ops.reverse [sid]]
  cases hc : specLookupGo h [] ops.reverse with
  | none => rfl
  | some s => by_cases hs : s = sid <;> simp [hs]

/-- The session record `register` builds from its arguments. -/
def mkSession (sid pn ph uv : String) (now : Nat) : PluginSession :=
  { session_id := sid, project_name := pn, project_hash := ph,
    unity_version := uv, registered_at := now, connected_at := now,
    tools := [], project_id := none }

theorem register_hash_eq (st : RegistryState) (sid pn ph uv : String) (now : Nat) :
    (PluginRegistry.register st sid pn ph uv now).1.hash_to_session
      = dinsert st.hash_to_session ph sid := rfl

theorem register_sessions_of_none (st : RegistryState) (sid pn ph uv : String)
    (now : Nat) (hc : dget st.hash_to_session ph = none) :
    (PluginRegistry.register st sid pn ph uv now).1.sessions
      = dinsert st.sessions sid (mkSession sid pn ph uv now) := by
  show dinsert (match dget st.hash_to_session ph with
      | some prev => if prev ≠ "" ∧ prev ≠ sid then derase st.sessions prev
                     else st.sessions
      | none => st.sessions) sid (mkSession sid pn ph uv now)
    = dinsert st.sessions sid (mkSession sid pn ph uv now)
  rw [hc]

theorem register_sessions_of_steal (st : RegistryState) (sid pn ph uv : String)
    (now : Nat) (prev : String) (hc : dget st.hash_to_session ph = some prev)
    (hcond : prev ≠ "" ∧ prev ≠ sid) :
    (PluginRegistry.register st sid pn ph uv now).1.sessions
      = dinsert (derase st.sessions prev) sid (mkSession sid pn ph uv now) := by
  show dinsert (match dget st.hash_to_session ph with
      | some p => if p ≠ "" ∧ p ≠ sid then derase st.sessions p
                  else st.sessions
      | none => st.sessions) sid (mkSession sid pn ph uv now)
    = dinsert (derase st.sessions prev) sid (mkSession sid pn ph uv now)
  rw [hc]
  show dinsert (if prev ≠ "" ∧ prev ≠ sid then derase st.sessions prev
      else st.sessions) sid (mkSession sid pn ph uv now) = _
  rw [if_pos hcond]

theorem unregister_of_none (st : RegistryState) (sid : String)
    (hc : dget st.sessions sid = none) :
    PluginRegistry.unregister st sid = st := by
  unfold PluginRegistry.unregister
  rw [hc]

theorem unregister_of_some_hit (st : RegistryState) (sid : String)
    (sess : PluginSession) (hc : dget st.sessions sid = some sess)
    (hg : dget st.hash_to_session sess.project_hash = some sid) :
    PluginRegistry.unregister st sid
      = { sessions := derase st.sessions sid,
          hash_to_session := derase st.hash_to_session sess.project_hash } := by
  unfold PluginRegistry.unregister
  rw [hc]
  show (if dget st.hash_to_session sess.project_hash = some sid then
      ({ sessions := derase st.sessions sid,
         hash_to_session := derase st.hash_to_session sess.project_hash } : RegistryState)
    else
      { sessions := derase st.sessions sid,
        hash_to_session := st.hash_to_session }) = _
  rw [if_pos hg]

/-- Invariant tying a trace to the registry state it produces: the hash map
realises `specLookup`, the two dictionaries point at each other consistently,
and every stored session id was registered at some point of the trace. -/
def StateOK (ops : List RegOp) (st : RegistryState) : Prop :=
  (∀ h : String, dget st.hash_to_session h = specLookup ops h) ∧
  (∀ (sid : String) (s : PluginSession), dget st.sessions sid = some s →
    s.session_id = sid ∧ dget st.hash_to_session s.project_hash = some sid) ∧
  (∀ h sid : String, dget st.hash_to_session h = some sid →
    ∃ s : PluginSession, dget st.sessions sid = some s ∧ s.project_hash = h) ∧
  (∀ sid : String, (dget st.sessions sid).isSome → sid ∈ regSids ops)

theorem runOps_stateOK : ∀ ops : List RegOp, FreshOps ops → StateOK ops (runOps ops) := by
  intro ops
  induction ops using List.reverseRecOn with
  | nil =>
    intro _
    refine ⟨fun h => rfl, ?_, ?_, ?_⟩
    · intro sid s hs
      exact Option.noConfusion hs
    · intro h sid hs
      exact Option.noConfusion hs
    · intro sid hs
      exact Bool.noConfusion hs
  | append_singleton ops op ih =>
    intro hf
    cases op with
    | reg sid pn ph uv =>
      have hsids : regSids (ops ++ [RegOp.reg sid pn ph uv]) = regSids ops ++ [sid] := by
        rw [regSids_append]
        rfl
      have hnodup : (regSids ops ++ [sid]).Nodup := by
        rw [← hsids]
        exact hf.1
      have hfresh : sid ∉ regSids ops := by
        rcases List.nodup_append.mp hnodup with ⟨-, -, hdisj⟩
        intro hmem
        exact hdisj hmem (List.mem_singleton_self sid)
      have hfops : FreshOps ops := by
        refine ⟨(List.nodup_append.mp hnodup).1, ?_⟩
        intro s hs
        exact hf.2 s (by rw [hsids]; exact List.mem_append_left _ hs)
      obtain ⟨ih1, ih2, ih3, ih4⟩ := ih hfops
      rw [runOps_snoc]
      show StateOK _ ((PluginRegistry.register (runOps ops) sid pn ph uv 0).1)
      set st := runOps ops with hst
      have hnotin : dget st.sessions sid = none := by
        cases hc : dget st.sessions sid with
        | none => rfl
        | some s => exact absurd (ih4 sid (by rw [hc]; rfl)) hfresh
      have hhash : (PluginRegistry.register st sid pn ph uv 0).1.hash_to_session
          = dinsert st.hash_to_session ph sid := register_hash_eq st sid pn ph uv 0
      cases hprev : dget st.hash_to_session ph with
      | none =>
        have hsess : (PluginRegistry.register st sid pn ph uv 0).1.sessions
            = dinsert st.sessions sid (mkSession sid pn ph uv 0) :=
          register_sessions_of_none st sid pn ph uv 0 hprev
        refine ⟨?_, ?_, ?_, ?_⟩
        · intro h
          rw [specLookup_snoc_reg, hhash]
          by_cases hph : ph = h
          · subst hph
            rw [if_pos rfl]
            exact dget_dinsert_self _ _ _
          · rw [if_neg hph, dget_dinsert_ne _ _ _ _ (fun e => hph e.symm)]
            exact ih1 h
        · intro sid' s hs
          rw [hsess] at hs
          rw [hhash]
          by_cases hss : sid' = sid
          · subst hss
            rw [dget_dinsert_self] at hs
            injection hs with he
            subst he
            exact ⟨rfl, dget_dinsert_self _ _ _⟩
          · rw [dget_dinsert_ne _ _ _ _ hss] at hs
            obtain ⟨hid, hmap⟩ := ih2 sid' s hs
            refine ⟨hid, ?_⟩
            by_cases hph2 : s.project_hash = ph
            · rw [hph2] at hmap
              rw [hprev] at hmap
              exact Option.noConfusion hmap
            · rw [dget_dinsert_ne _ _ _ _ hph2]
              exact hmap
        · intro h sid' hm
          rw [hhash] at hm
          by_cases hph : ph = h
          · subst hph
            rw [dget_dinsert_self] at hm
            injection hm with he
            subst he
            refine ⟨mkSession sid pn ph uv 0, ?_, rfl⟩
            rw [hsess]
            exact dget_dinsert_self _ _ _
          · rw [dget_dinsert_ne _ _ _ _ (fun e => hph e.symm)] at hm
            obtain ⟨s, hs, hsh⟩ := ih3 h sid' hm
            have hss : sid' ≠ sid := by
              intro e
              rw [e, hnotin] at hs
              exact Option.noConfusion hs
            refine ⟨s, ?_, hsh⟩
            rw [hsess, dget_dinsert_ne _ _ _ _ hss]
            exact hs
        · intro sid' hs
          rw [hsids]
          by_cases hss : sid' = sid
          · subst hss
            exact List.mem_append_right _ (List.mem_singleton_self _)
          · rw [hsess, dget_dinsert_ne _ _ _ _ hss] at hs
            exact List.mem_append_left _ (ih4 sid' hs)
      | some prev =>
        obtain ⟨ps, hps, hpsh⟩ := ih3 ph prev hprev
        have hprevmem : prev ∈ regSids ops := ih4 prev (by rw [hps]; rfl)
        have hprevne : prev ≠ "" := hfops.2 prev hprevmem
        have hprevsid : prev ≠ sid := by
          intro e
          rw [e] at hprevmem
          exact hfresh hprevmem
        have hsess : (PluginRegistry.register st sid pn ph uv 0).1.sessions
            = dinsert (derase st.sessions prev) sid (mkSession sid pn ph uv 0) :=
          register_sessions_of_steal st sid pn ph uv 0 prev hprev ⟨hprevne, hprevsid⟩
        refine ⟨?_, ?_, ?_, ?_⟩
        · intro h
          rw [specLookup_snoc_reg, hhash]
          by_cases hph : ph = h
          · subst hph
            rw [if_pos rfl]
            exact dget_dinsert_self _ _ _
          · rw [if_neg hph, dget_dinsert_ne _ _ _ _ (fun e => hph e.symm)]
            exact ih1 h
        · intro sid' s hs
          rw [hsess] at hs
          rw [hhash]
          by_cases hss : sid' = sid
          · subst hss
            rw [dget_dinsert_self] at hs
            injection hs with he
            subst he
            exact ⟨rfl, dget_dinsert_self _ _ _⟩
          · rw [dget_dinsert_ne _ _ _ _ hss] at hs
            have hsp : sid' ≠ prev := by
              intro e
              rw [e, dget_derase_self] at hs
              exact Option.noConfusion hs
            rw [dget_derase_ne _ _ _ hsp] at hs
            obtain ⟨hid, hmap⟩ := ih2 sid' s hs
            refine ⟨hid, ?_⟩
            by_cases hph2 : s.project_hash = ph
            · rw [hph2] at hmap
              rw [hprev] at hmap
              injection hmap with he
              exact absurd he.symm hsp
            · rw [dget_dinsert_ne _ _ _ _ hph2]
              exact hmap
        · intro h sid' hm
          rw [hhash] at hm
          by_cases hph : ph = h
          · subst hph
            rw [dget_dinsert_self] at hm
            injection hm with he
            subst he
            refine ⟨mkSession sid pn ph uv 0, ?_, rfl⟩
            rw [hsess]
            exact dget_dinsert_self _ _ _
          · rw [dget_dinsert_ne _ _ _ _ (fun e => hph e.symm)] at hm
            obtain ⟨s, hs, hsh⟩ := ih3 h sid' hm
            have hss : sid' ≠ sid := by
              intro e
              rw [e, hnotin] at hs
              exact Option.noConfusion hs
            have hsp : sid' ≠ prev := by
              intro e
              rw [e, hps] at hs
              injection hs with he
              rw [← he] at hsh
              rw [hpsh] at hsh
              exact hph hsh
            refine ⟨s, ?_, hsh⟩
            rw [hsess, dget_dinsert_ne _ _ _ _ hss, dget_derase_ne _ _ _ hsp]
            exact hs
        · intro sid' hs
          rw [hsids]
          by_cases hss : sid' = sid
          · subst hss
            exact List.mem_append_right _ (List.mem_singleton_self _)
          · rw [hsess, dget_dinsert_ne _ _ _ _ hss] at hs
            have hsp : sid' ≠ prev := by
              intro e
              rw [e, dget_derase_self] at hs
              exact Bool.noConfusion hs
            rw [dget_derase_ne _ _ _ hsp] at hs
            exact List.mem_append_left _ (ih4 sid' hs)
    | unreg sid =>
      have hsids : regSids (ops ++ [RegOp.unreg sid]) = regSids ops := by
        rw [regSids_append]
        show regSids ops ++ [] = regSids ops
        simp
      have hfops : FreshOps ops := by
        refine ⟨?_, ?_⟩
        · rw [← hsids]
          exact hf.1
        · intro s hs
          exact hf.2 s (by rw [hsids]; exact hs)
      obtain ⟨ih1, ih2, ih3, ih4⟩ := ih hfops
      rw [runOps_snoc]
      show StateOK _ (PluginRegistry.unregister (runOps ops) sid)
      set st := runOps ops with hst
      cases hc : dget st.sessions sid with
      | none =>
        rw [unregister_of_none st sid hc]
        have hnosid : ∀ h : String, dget st.hash_to_session h ≠ some sid := by
          intro h hm
          obtain ⟨s, hs, -⟩ := ih3 h sid hm
          rw [hc] at hs
          exact Option.noConfusion hs
        refine ⟨?_, ih2, ih3, ?_⟩
        · intro h
          rw [specLookup_snoc_unreg]
          cases hcl : specLookup ops h with
          | none =>
            rw [ih1 h, hcl]
            rfl
          | some s =>
            have hssid : s ≠ sid := by
              intro e
              apply hnosid h
              rw [ih1 h, hcl, e]
            rw [ih1 h, hcl]
            show some s = if s = sid then none else some s
            rw [if_neg hssid]
        · intro sid' hs
          rw [hsids]
          exact ih4 sid' hs
      | some sess =>
        obtain ⟨hsid_eq, hguard⟩ := ih2 sid sess hc
        rw [unregister_of_some_hit st sid sess hc hguard]
        refine ⟨?_, ?_, ?_, ?_⟩
        · intro h
          rw [specLookup_snoc_unreg]
          show dget (derase st.hash_to_session sess.project_hash) h = _
          by_cases hph : sess.project_hash = h
          · have hsl : specLookup ops h = some sid := by
              rw [← ih1 h, ← hph]
              exact hguard
            rw [hph, dget_derase_self, hsl]
            show (none : Option String) = if sid = sid then none else some sid
            rw [if_pos rfl]
          · rw [dget_derase_ne _ _ _ (fun e => hph e.symm), ih1 h]
            cases hcl : specLookup ops h with
            | none => rfl
            | some s =>
              have hssid : s ≠ sid := by
                intro e
                subst e
                have hm : dget st.hash_to_session h = some s := by
                  rw [ih1 h, hcl]
                obtain ⟨s2, hs2, hsh2⟩ := ih3 h s hm
                rw [hc] at hs2
                injection hs2 with he2
                rw [← he2] at hsh2
                exact hph hsh2
              show some s = if s = sid then none else some s
              rw [if_neg hssid]
        · intro sid' s hs
          show s.session_id = sid' ∧
            dget (derase st.hash_to_session sess.project_hash) s.project_hash = some sid'
          have hss : sid' ≠ sid := by
            intro e
            rw [e] at hs
            show False
            have : dget (derase st.sessions sid) sid = none := dget_derase_self _ _
            rw [this] at hs
            exact Option.noConfusion hs
          have hs' : dget st.sessions sid' = some s := by
            rw [← dget_derase_ne st.sessions sid sid' hss]
            exact hs
          obtain ⟨hid, hmap⟩ := ih2 sid' s hs'
          refine ⟨hid, ?_⟩
          by_cases hph : s.project_hash = sess.project_hash
          · rw [hph] at hmap
            rw [hguard] at hmap
            injection hmap with he
            exact absurd he.symm hss
          · rw [dget_derase_ne _ _ _ hph]
            exact hmap
        · intro h sid' hm
          show ∃ s : PluginSession, dget (derase st.sessions sid) sid' = some s ∧
            s.project_hash = h
          have hph : h ≠ sess.project_hash := by
            intro e
            rw [e] at hm
            have : dget (derase st.hash_to_session sess.project_hash)
                sess.project_hash = none := dget_derase_self _ _
            rw [this] at hm
            exact Option.noConfusion hm
          have hm' : dget st.hash_to_session h = some sid' := by
            rw [← dget_derase_ne st.hash_to_session sess.project_hash h hph]
            exact hm
          obtain ⟨s, hs, hsh⟩ := ih3 h sid' hm'
          have hss : sid' ≠ sid := by
            intro e
            rw [e, hc] at hs
            injection hs with he
            rw [← he] at hsh
            exact hph hsh.symm
          refine ⟨s, ?_, hsh⟩
          rw [dget_derase_ne _ _ _ hss]
          exact hs
        · intro sid' hs
          rw [hsids]
          show sid' ∈ regSids ops
          have hss : sid' ≠ sid := by
            intro e
            rw [e] at hs
            have : dget (derase st.sessions sid) sid = none := dget_derase_self _ _
            rw [this] at hs
            exact Bool.noConfusion hs
          have hs' : (dget st.sessions sid').isSome := by
            rw [← dget_derase_ne st.sessions sid sid' hss]
            exact hs
          exact ih4 sid' hs'

theorem unregister_of_some_miss (st : RegistryState) (sid : String)
    (sess : PluginSession) (hc : dget st.sessions sid = some sess)
    (hg : ¬ dget st.hash_to_session sess.project_hash = some sid) :
    PluginRegistry.unregister st sid
      = { sessions := derase st.sessions sid,
          hash_to_session := st.hash_to_session } := by
  unfold PluginRegistry.unregister
  rw [hc]
  show (if dget st.hash_to_session sess.project_hash = some sid then
      ({ sessions := derase st.sessions sid,
         hash_to_session := derase st.hash_to_session sess.project_hash } : RegistryState)
    else
      { sessions := derase st.sessions sid,
        hash_to_session := st.hash_to_session }) = _
  rw [if_neg hg]

theorem unregister_keeps_other_mapping (st : RegistryState) (sid h : String)
    (hne : PluginRegistry.get_session_id_by_hash st h ≠ some sid) :
    PluginRegistry.get_session_id_by_hash (PluginRegistry.unregister st sid) h
      = PluginRegistry.get_session_id_by_hash st h := by
  cases hc : dget st.sessions sid with
  | none => rw [unregister_of_none st sid hc]
  | some sess =>
    by_cases hg : dget st.hash_to_session sess.project_hash = some sid
    · rw [unregister_of_some_hit st sid sess hc hg]
      show dget (derase st.hash_to_session sess.project_hash) h = _
      have hph : h ≠ sess.project_hash := by
        intro e
        apply hne
        show dget st.hash_to_session h = some sid
        rw [e]
        exact hg
      exact dget_derase_ne _ _ _ hph
    · rw [unregister_of_some_miss st sid sess hc hg]
      rfl

/-- A trace in which session id `"s1"` re-registers under a different hash and
then unregisters, leaving a dangling `"h1"` mapping. -/
def c4BadTrace : List RegOp :=
  [RegOp.reg "s1" "P" "h1" "v", RegOp.reg "s1" "P" "h2" "v", RegOp.unreg "s1"]

/-- C4 counterexample: the claim quantifies over *every* finite sequence of
`register`/`unregister` calls.  On the trace where `"s1"` registers hash
`"h1"`, re-registers hash `"h2"` and is then unregistered, the registry ends
up with no sessions at all — so the claim demands `get_session_id_by_hash("h1")
= None` — yet the code answers `some "s1"`, a dangling mapping left by the
re-registration (`specLookup`, the claim's value, is indeed `none`). -/
theorem c4_nonfresh_trace_cex :
    PluginRegistry.get_session_id_by_hash (runOps c4BadTrace) "h1" = some "s1" ∧
    PluginRegistry.get_session (runOps c4BadTrace) "s1" = none ∧
    (runOps c4BadTrace).sessions = [] ∧
    specLookup c4BadTrace "h1" = none :=
  ⟨rfl, rfl, rfl, rfl⟩

/-- C4 (amended): for every trace of `register`/`unregister` calls in which
each `register` uses a fresh non-empty session id (as the hub guarantees via
uuid4), `get_session_id_by_hash h` returns the session id of the most recent
`register` with project hash `h` unless that id was unregistered later in the
trace, and `none` otherwise (`specLookup`); and, on any state, `unregister`
removes a hash→session mapping only if it still points at the unregistered
session id — any mapping pointing elsewhere is untouched. -/
theorem c4_hash_lookup_spec (ops : List RegOp) (h : String) (hf : FreshOps ops) :
    PluginRegistry.get_session_id_by_hash (runOps ops) h = specLookup ops h ∧
    (∀ (st : RegistryState) (sid h' : String),
      PluginRegistry.get_session_id_by_hash st h' ≠ some sid →
      PluginRegistry.get_session_id_by_hash (PluginRegistry.unregister st sid) h'
        = PluginRegistry.get_session_id_by_hash st h') :=
  ⟨(runOps_stateOK ops hf).1 h,
   fun st sid h' hne => unregister_keeps_other_mapping st sid h' hne⟩

/-- A fresh-id trace: two sessions register distinct hashes after a hash
steal, then a stale disconnect for the evicted session arrives. -/
def c4GoodTrace : List RegOp :=
  [RegOp.reg "s1" "P" "h" "v", RegOp.reg "s2" "Q" "h" "v", RegOp.unreg "s1"]

/-- Witness for `c4_hash_lookup_spec`: on the stale-disconnect trace, lookup
of `"h"` agrees with the specification value (`some "s2"`). -/
theorem c4_hash_lookup_spec_witness :
    PluginRegistry.get_session_id_by_hash (runOps c4GoodTrace) "h"
        = specLookup c4GoodTrace "h" ∧
    (∀ (st : RegistryState) (sid h' : String),
      PluginRegistry.get_session_id_by_hash st h' ≠ some sid →
      PluginRegistry.get_session_id_by_hash (PluginRegistry.unregister st sid) h'
        = PluginRegistry.get_session_id_by_hash st h') :=
  c4_hash_lookup_spec c4GoodTrace "h" ⟨by decide, by decide⟩
